import Mathlib

/-!
Verification of the omni-doc orchestration core against its design spec.

The definitions below are a shallow embedding of the Python source:
  * `src/omni_doc/models/state.py`   (channels, findings, dedup/merge engine)
  * `src/omni_doc/graph/routing.py`  (routers for the conditional edges)
  * `src/omni_doc/nodes/auditor.py`  (analysis step boundary)
  * `src/omni_doc/nodes/critic.py`   (validation step boundary)
  * `src/omni_doc/nodes/extractor.py` and `src/omni_doc/nodes/repo_scanner.py`
    (collaborator-failure handling at the step boundary)
  * `src/omni_doc/graph/main_graph.py` (fixed edges of the step graph)

Strings are modelled over their character lists; text predicates from the
Python standard library (lowercasing, whitespace split, word characters)
are modelled for the ASCII range, which covers every constant the source
uses.  External collaborators (GitHub, the LLM) are passed in as explicit
`Except` results, mirroring the try/except boundaries of the source.
-/

/-! ### Text utilities used by the dedup key (state.py lines 15 to 61) -/

/-- True when `lead` occurs at the head of `l` (character by character). -/
def leadMatch : List Char → List Char → Bool
  | [], _ => true
  | _ :: _, [] => false
  | a :: as, b :: bs => a = b && leadMatch as bs

/-- True when `needle` occurs as a contiguous substring of `hay`.
Models the Python `needle in hay` test on strings. -/
def listContains (needle : List Char) : List Char → Bool
  | [] => needle.isEmpty
  | c :: rest => leadMatch needle (c :: rest) || listContains needle rest

/-- Python `needle in hay` for `String`. -/
def strContains (hay needle : String) : Bool :=
  listContains needle.data hay.data

/-- Python `str.lower`, ASCII model, as a character list. -/
def lowerChars (s : String) : List Char :=
  s.data.map Char.toLower

/-- A character the punctuation-stripping regex of the source keeps: a word character or whitespace. -/
def keptChar (c : Char) : Bool :=
  c.isAlphanum || c = '_' || c.isWhitespace

/-- Python `str.split()` with no argument: split on whitespace runs,
dropping empty pieces. -/
def splitWs (l : List Char) : List (List Char) :=
  let p := l.foldr
    (fun c (acc : List Char × List (List Char)) =>
      if c.isWhitespace then
        if acc.1.isEmpty then acc else ([], acc.1 :: acc.2)
      else (c :: acc.1, acc.2))
    ([], [])
  if p.1.isEmpty then p.2 else p.1 :: p.2

/-- Lexicographic order on character lists, matching Python string
comparison over the ASCII range. -/
def lexLe : List Char → List Char → Bool
  | [], _ => true
  | _ :: _, [] => false
  | a :: as, b :: bs => if a = b then lexLe as bs else decide (a < b)

/-- Insert into a lexicographically sorted list of strings. -/
def insertSorted (x : String) : List String → List String
  | [] => [x]
  | y :: ys => if lexLe x.data y.data then x :: y :: ys else y :: insertSorted x ys

/-- Python `sorted` on a list of strings (stable insertion sort). -/
def sortStrings : List String → List String
  | [] => []
  | x :: xs => insertSorted x (sortStrings xs)

/-- Python `sep.join(parts)`. -/
def joinSep (sep : String) : List String → String
  | [] => ""
  | [x] => x
  | x :: y :: ys => x ++ sep ++ joinSep sep (y :: ys)

/-- Embeds `_STOPWORDS` from state.py line 16. -/
def stopwords : List String :=
  ["the", "a", "an", "is", "are", "for", "to", "in", "of", "and", "or",
   "with", "this", "that", "new", "add", "update", "missing", "outdated",
   "needed", "needs", "document", "documentation", "section"]

/-- Embeds `_CONCEPT_SYNONYMS` from state.py lines 19 to 26, in dict insertion
order. -/
def conceptSynonyms : List (String × List String) :=
  [("contract", ["contract", "c2c", "contractor", "temporary"]),
   ("diagram", ["diagram", "architecture", "flowchart", "visual", "mermaid"]),
   ("config", ["config", "configuration", "parameter", "setting", "variable"]),
   ("feature", ["feature", "functionality", "capability"]),
   ("api", ["api", "endpoint", "route", "interface"]),
   ("readme", ["readme", "overview", "introduction"])]

/-- Embeds `_extract_concepts` from state.py: the canonical concepts whose
synonym set has a member occurring in the lowercased text.  The Python
code accumulates a set; here the list of canonicals (each listed once in
the table) plays that role and is sorted at use site, as in the source. -/
def extractConcepts (text : String) : List String :=
  let tl := lowerChars text
  (conceptSynonyms.filter
    (fun p => p.2.any (fun syn => listContains syn.data tl))).map Prod.fst

/-- Embeds `_normalize_title` from state.py: lowercase, strip punctuation, drop
stopwords, sort the remaining words, join with spaces. -/
def normalizeTitle (title : String) : String :=
  let cleaned := (lowerChars title).filter keptChar
  let words := (splitWs cleaned).map (fun l => String.mk l)
  let keptWords := words.filter (fun w => !(stopwords.contains w))
  joinSep " " (sortStrings keptWords)

/-! ### Findings and the dedup/merge engine (state.py lines 64 to 128) -/

/-- Embeds `AnalysisFindingRecord` from state.py lines 195 to 207. -/
structure Finding where
  id : String
  finding_type : String
  severity : String
  title : String
  description : String
  file_path : Option String
  line_number : Option Nat
  target_section : Option String
  recommended_update : Option String
  diagram : Option String
deriving DecidableEq

/-- Embeds `_generate_dedup_key` from state.py lines 64 to 86. -/
def dedupKey (f : Finding) : String :=
  let concepts := extractConcepts (f.title ++ " " ++ f.description)
  let conceptsStr :=
    if concepts.isEmpty then normalizeTitle f.title
    else joinSep "|" (sortStrings concepts)
  f.finding_type ++ "|" ++ f.file_path.getD "" ++ "|" ++ conceptsStr

/-- Embeds `_SEVERITY_ORDER` from state.py line 89, with the `.get(_, 4)`
default for unknown tags.  Lower number means more severe. -/
def severityOrder (s : String) : Nat :=
  if s = "critical" then 0
  else if s = "high" then 1
  else if s = "medium" then 2
  else if s = "low" then 3
  else 4

/-- Python truthiness of the optional `recommended_update` field:
`None` and the empty string are falsy. -/
def truthyRec (o : Option String) : Bool :=
  match o with
  | none => false
  | some s => !s.isEmpty

/-- Conflict resolution of `merge_findings` (state.py lines 113 to 126)
for one stored finding and one incoming finding under the same key. -/
def resolve (existing incoming : Finding) : Finding :=
  if severityOrder incoming.severity < severityOrder existing.severity then
    if truthyRec existing.recommended_update
        && !(truthyRec incoming.recommended_update) then
      { incoming with recommended_update := existing.recommended_update }
    else incoming
  else if existing.recommended_update = none
      && truthyRec incoming.recommended_update then
    { existing with recommended_update := incoming.recommended_update }
  else existing

/-- Lookup in the insertion-ordered key map (Python dict membership). -/
def lookupKey (k : String) : List (String × Finding) → Option Finding
  | [] => none
  | (k1, v) :: rest => if k1 = k then some v else lookupKey k rest

/-- Overwrite the value stored at a key, keeping insertion order
(Python dict item assignment on a present key). -/
def setKey (k : String) (v : Finding) : List (String × Finding) → List (String × Finding)
  | [] => []
  | (k1, v1) :: rest =>
      if k1 = k then (k1, v) :: rest else (k1, v1) :: setKey k v rest

/-- One iteration of the `for finding in left + right` loop of
`merge_findings`: insert a fresh key at the end, or resolve against the
stored finding. -/
def insertFinding (m : List (String × Finding)) (f : Finding) : List (String × Finding) :=
  let k := dedupKey f
  match lookupKey k m with
  | none => m ++ [(k, f)]
  | some e => setKey k (resolve e f) m

/-- Embeds `merge_findings` from state.py lines 92 to 128: fold the concatenated
lists into a key map and return its values in first-seen key order. -/
def merge_findings (left right : List Finding) : List Finding :=
  ((left ++ right).foldl insertFinding []).map Prod.snd

/-- Embeds `merge_lists` from state.py lines 10 to 12: the append-list reducer. -/
def merge_lists {α : Type} (left right : List α) : List α :=
  left ++ right

/-! ### Routers and the step graph (routing.py, main_graph.py) -/

/-- The node names of the step graph in main_graph.py, plus END. -/
inductive NodeName where
  | extractor
  | discovery
  | repo_scanner
  | auditor
  | correction_agent
  | technical_writer_agent
  | visual_architect_agent
  | critic
  | aggregator
  | post_comment
  | endNode
deriving DecidableEq

/-- The slice of `OmniDocState` (state.py lines 210 to 243) that the
routers and the retry loop read and write. -/
structure RState where
  enable_diagrams : Bool
  agents_needed : List String
  findings : List Finding
  validation_passed : Bool
  validation_feedback : Option String
  retry_count : Nat
  errors : List String
deriving DecidableEq

/-- Embeds `route_after_discovery` from routing.py lines 12 to 31: a non-empty
error list routes straight to the auditor, else to the repository scan. -/
def route_after_discovery (s : RState) : NodeName :=
  if !s.errors.isEmpty then NodeName.auditor else NodeName.repo_scanner

/-- Embeds `should_retry_analysis` from routing.py lines 34 to 57.  The
configured retry ceiling is passed explicitly (`get_settings().max_retries`
in the source). -/
def should_retry_analysis (maxRetries : Nat) (s : RState) : NodeName :=
  if s.validation_passed then NodeName.aggregator
  else if maxRetries ≤ s.retry_count then NodeName.aggregator
  else NodeName.auditor

/-- Embeds `route_agents` from routing.py lines 60 to 93. -/
def route_agents (s : RState) : NodeName :=
  if s.agents_needed.contains "technical_writer" then
    NodeName.technical_writer_agent
  else if s.enable_diagrams && s.agents_needed.contains "visual_architect" then
    NodeName.visual_architect_agent
  else if s.agents_needed.contains "correction" then
    NodeName.correction_agent
  else NodeName.critic

/-- Embeds `route_after_technical_writer` from routing.py lines 96 to 119. -/
def route_after_technical_writer (s : RState) : NodeName :=
  if s.enable_diagrams && s.agents_needed.contains "visual_architect" then
    NodeName.visual_architect_agent
  else if s.agents_needed.contains "correction" then
    NodeName.correction_agent
  else NodeName.critic

/-- Embeds `route_after_visual_architect` from routing.py lines 122 to 140. -/
def route_after_visual_architect (s : RState) : NodeName :=
  if s.agents_needed.contains "correction" then NodeName.correction_agent
  else NodeName.critic

/-- The unconditional `add_edge` calls of `build_main_graph`
(main_graph.py lines 83 to 147); nodes with conditional exits map to
`none`. -/
def fixedSuccessor : NodeName → Option NodeName
  | NodeName.extractor => some NodeName.discovery
  | NodeName.repo_scanner => some NodeName.auditor
  | NodeName.correction_agent => some NodeName.critic
  | NodeName.aggregator => some NodeName.post_comment
  | NodeName.post_comment => some NodeName.endNode
  | _ => none

/-! ### The validation step (critic.py) -/

/-- Embeds `validate_analysis` from critic.py lines 52 to 129, at its step
boundary.  The external validator call is passed in as an `Except`
result: `Except.error` stands for the raised exception that the final
`except` clause of the source catches.  The returned pair is the
`(validation_passed, validation_feedback)` update; the step never lets a
collaborator failure escape. -/
def validate_analysis (maxRetries : Nat) (findings : List Finding)
    (retryCount : Nat) (llm : Except String (Bool × String)) : Bool × String :=
  if findings.isEmpty then
    (true, "No findings generated")
  else if maxRetries ≤ retryCount then
    (true, "Max retries exceeded - accepting analysis")
  else
    match llm with
    | Except.ok (vp, feedback) => (vp, feedback)
    | Except.error e => (true, "Validation error (accepting): " ++ e)

/-! ### The analysis step (auditor.py) -/

/-- The fields of `PRMetadata` the analysis step control flow looks at. -/
structure PRMeta where
  title : String
deriving DecidableEq

/-- Embeds `_determine_agents_needed` from auditor.py lines 300 to 336. -/
def determine_agents_needed (llmSuggested : List String)
    (enableDiagrams : Bool) (docsMissing : Bool) : List String :=
  if docsMissing then
    ["technical_writer"] ++ (if enableDiagrams then ["visual_architect"] else [])
  else
    (if llmSuggested.contains "correction" then ["correction"] else [])
    ++ (if llmSuggested.contains "technical_writer" then ["technical_writer"] else [])
    ++ (if enableDiagrams && llmSuggested.contains "visual_architect" then
          ["visual_architect"] else [])

/-- Embeds `docs_missing` from auditor.py lines 134 to 137: status absent or
equal to the string "missing".  The argument is the `status` field of the
optional `documentation_status` channel. -/
def docsMissing (docStatus : Option String) : Bool :=
  match docStatus with
  | none => true
  | some st => st = "missing"

/-- The partial update returned by the analysis step; a `none` field is a
channel the update does not write. -/
structure AuditorUpdate where
  findings : Option (List Finding)
  agents_needed : Option (List String)
  retry_count : Option Nat
  errors : Option (List String)
deriving DecidableEq

/-- Embeds `analyze_changes` from auditor.py lines 105 to 197, at its step
boundary.  The LLM call is passed in as an `Except` carrying the
converted finding records and the suggested agent list; `Except.error`
in the result models the `raise LLMError` on line 197, which the step
does NOT convert into an error-list append. -/
def analyze_changes (prMetadata : Option PRMeta) (docStatus : Option String)
    (enableDiagrams : Bool) (retryCount : Nat)
    (llm : Except String (List Finding × List String)) :
    Except String AuditorUpdate :=
  match prMetadata with
  | none =>
      Except.ok
        { findings := none, agents_needed := none, retry_count := none,
          errors := some ["No PR metadata available for analysis"] }
  | some _ =>
      match llm with
      | Except.error e => Except.error ("Analysis failed: " ++ e)
      | Except.ok (fs, suggested) =>
          Except.ok
            { findings := some fs,
              agents_needed :=
                some (determine_agents_needed suggested enableDiagrams
                  (docsMissing docStatus)),
              retry_count := some (retryCount + 1),
              errors := none }

/-! ### Collaborator-failure handling in the fetch and scan steps
(extractor.py, repo_scanner.py) -/

/-- A failed external call, split the way the `except` clauses of the
source split it: a `GitHubAPIError` versus any other exception. -/
inductive CollabFailure where
  | api (msg : String)
  | other (msg : String)
deriving DecidableEq

/-- The partial update returned by the PR-fetch step. -/
structure ExtractorUpdate where
  pr_metadata : Option PRMeta
  file_changes : Option (List String)
  errors : Option (List String)
deriving DecidableEq

/-- Embeds `extract_pr_diff` from extractor.py lines 11 to 59 at its step
boundary: the GitHub fetch is passed in as a result, and both `except`
clauses (lines 50 to 59) turn the failure into an error-list append. -/
def extract_pr_diff (fetch : Except CollabFailure (PRMeta × List String)) :
    Except String ExtractorUpdate :=
  match fetch with
  | Except.ok (pm, fcs) =>
      Except.ok { pr_metadata := some pm, file_changes := some fcs, errors := none }
  | Except.error (CollabFailure.api m) =>
      Except.ok
        { pr_metadata := none, file_changes := none,
          errors := some ["Failed to extract PR data: " ++ m] }
  | Except.error (CollabFailure.other m) =>
      Except.ok
        { pr_metadata := none, file_changes := none,
          errors := some ["Unexpected error extracting PR data: " ++ m] }

/-- The successful scan result of the repository-scan step. -/
structure ScanOk where
  documentation_files : List String
  documentation_status : String
  source_files : List String
  repo_structure : String
deriving DecidableEq

/-- The partial update returned by the repository-scan step. -/
structure ScannerUpdate where
  documentation_files : Option (List String)
  documentation_status : Option String
  source_files : Option (List String)
  repo_structure : Option String
  errors : Option (List String)
deriving DecidableEq

/-- Embeds `scan_repository` from repo_scanner.py (boundary at lines 226 to 231):
both `except` clauses turn the collaborator failure into an error-list
append. -/
def scan_repository (scan : Except CollabFailure ScanOk) :
    Except String ScannerUpdate :=
  match scan with
  | Except.ok r =>
      Except.ok
        { documentation_files := some r.documentation_files,
          documentation_status := some r.documentation_status,
          source_files := some r.source_files,
          repo_structure := some r.repo_structure, errors := none }
  | Except.error (CollabFailure.api m) =>
      Except.ok
        { documentation_files := none, documentation_status := none,
          source_files := none, repo_structure := none,
          errors := some ["Failed to scan repository: " ++ m] }
  | Except.error (CollabFailure.other m) =>
      Except.ok
        { documentation_files := none, documentation_status := none,
          source_files := none, repo_structure := none,
          errors := some ["Unexpected error scanning repository: " ++ m] }

/-! ### The retry loop (auditor, sub-task chain, critic, router) -/

/-- Applying the analysis step update on its success path to the state:
`findings` goes through the dedup reducer, `agents_needed` and
`retry_count` are plain overwrites (state.py lines 229 to 236). -/
def auditorApply (s : RState) (newFindings : List Finding)
    (agents : List String) : RState :=
  { s with
    findings := merge_findings s.findings newFindings,
    agents_needed := agents,
    retry_count := s.retry_count + 1 }

/-- Applying the validation step update to the state. -/
def criticApply (maxRetries : Nat) (llm : Except String (Bool × String))
    (s : RState) : RState :=
  let u := validate_analysis maxRetries s.findings s.retry_count llm
  { s with validation_passed := u.1, validation_feedback := some u.2 }

/-- One walk of the only cycle of the graph, starting at the analysis
step: run the auditor (its per-attempt LLM output passed as a stream),
merge the sub-task chain contribution into the findings channel, run the
critic (its per-attempt validator verdict passed as a stream), then follow
`should_retry_analysis` on the post-merge state.  Returns the number of
analysis-step invocations together with the state in which the aggregator
is entered.  `fuel` bounds the recursion; every run below exhausts the
loop before the fuel. -/
def runLoop (maxRetries : Nat) (analysisOut : Nat → List Finding × List String)
    (agentOut : Nat → List Finding) (verdict : Nat → Except String (Bool × String)) :
    Nat → RState → Nat × RState
  | 0, s => (0, s)
  | Nat.succ fuel, s =>
      let s1 := auditorApply s (analysisOut s.retry_count).1 (analysisOut s.retry_count).2
      let s2 := { s1 with findings := merge_findings s1.findings (agentOut s1.retry_count) }
      let s3 := criticApply maxRetries (verdict s2.retry_count) s2
      match should_retry_analysis maxRetries s3 with
      | NodeName.aggregator => (1, s3)
      | _ =>
          let r := runLoop maxRetries analysisOut agentOut verdict fuel s3
          (r.1 + 1, r.2)

/-- The state in which the analysis step is first entered in a run whose
fetch and scan steps succeeded: the channels of `create_initial_state`
(state.py lines 246 to 280) that the loop reads. -/
def loopStart : RState :=
  { enable_diagrams := true, agents_needed := [], findings := [],
    validation_passed := false, validation_feedback := none,
    retry_count := 0, errors := [] }

theorem dedupKey_update_rec (f : Finding) (r : Option String) :
    dedupKey { f with recommended_update := r } = dedupKey f := rfl

theorem merge_two (a b : Finding) (h : dedupKey b = dedupKey a) :
    merge_findings [a] [b] = [resolve a b] := by
  simp [merge_findings, insertFinding, lookupKey, setKey, h]

theorem resolve_severity (a b : Finding) :
    (resolve a b).severity =
      if severityOrder b.severity < severityOrder a.severity then b.severity
      else a.severity := by
  unfold resolve
  split_ifs <;> rfl

theorem truthyRec_some {t : String} (h : t ≠ "") : truthyRec (some t) = true := by
  have h2 : ¬ t.isEmpty = true := fun hc => h ((String.isEmpty_iff t).mp hc)
  simp [truthyRec, h2]

theorem truthyRec_none : truthyRec none = false := rfl

theorem resolve_rec_of_exactly_one (a b : Finding)
    (ha : a.recommended_update ≠ some "") (hb : b.recommended_update ≠ some "")
    (hx : truthyRec a.recommended_update ≠ truthyRec b.recommended_update) :
    (resolve a b).recommended_update =
      if truthyRec a.recommended_update then a.recommended_update
      else b.recommended_update := by
  rcases hra : a.recommended_update with _ | ta <;>
    rcases hrb : b.recommended_update with _ | tb
  · rw [hra, hrb] at hx; exact absurd rfl hx
  · have hTb : truthyRec (some tb) = true :=
      truthyRec_some (fun h => hb (by rw [hrb, h]))
    unfold resolve
    rw [hra, hrb]
    simp [truthyRec_none, hTb]
    split_ifs <;> simp [hrb]
  · have hTa : truthyRec (some ta) = true :=
      truthyRec_some (fun h => ha (by rw [hra, h]))
    unfold resolve
    rw [hra, hrb]
    simp [truthyRec_none, hTa]
    split_ifs <;> simp [hra]
  · have hTa : truthyRec (some ta) = true :=
      truthyRec_some (fun h => ha (by rw [hra, h]))
    have hTb : truthyRec (some tb) = true :=
      truthyRec_some (fun h => hb (by rw [hrb, h]))
    rw [hra, hrb, hTa, hTb] at hx
    exact absurd rfl hx

/-- C2: for two findings sharing a dedup key, the merged finding carries
the severity of the more severe input (under the total order of the code,
where a smaller order number is more severe), and the merge never
produces a strictly less severe outcome than either input. -/
theorem c2_severity_monotone (a b : Finding) (hk : dedupKey a = dedupKey b) :
    ∃ c, merge_findings [a] [b] = [c] ∧
      (c.severity = a.severity ∨ c.severity = b.severity) ∧
      severityOrder c.severity =
        min (severityOrder a.severity) (severityOrder b.severity) ∧
      severityOrder c.severity ≤ severityOrder a.severity ∧
      severityOrder c.severity ≤ severityOrder b.severity := by
  refine ⟨resolve a b, merge_two a b hk.symm, ?_, ?_, ?_, ?_⟩ <;>
    rw [resolve_severity] <;> split_ifs with h
  · exact Or.inr rfl
  · exact Or.inl rfl
  · omega
  · omega
  · omega
  · omega
  · omega
  · omega

def wA2 : Finding :=
  { id := "w2a", finding_type := "discrepancy", severity := "medium",
    title := "api response shape changed", description := "",
    file_path := some "docs/api.md", line_number := none,
    target_section := none, recommended_update := none, diagram := none }

def wB2 : Finding :=
  { wA2 with id := "w2b", severity := "high" }

theorem c2_witness :
    ∃ c, merge_findings [wA2] [wB2] = [c] ∧
      (c.severity = wA2.severity ∨ c.severity = wB2.severity) ∧
      severityOrder c.severity =
        min (severityOrder wA2.severity) (severityOrder wB2.severity) ∧
      severityOrder c.severity ≤ severityOrder wA2.severity ∧
      severityOrder c.severity ≤ severityOrder wB2.severity :=
  c2_severity_monotone wA2 wB2 (by decide)

/-- C3 (amended): when no colliding finding stores an empty-string
replacement text and exactly one of the two carries one, the merged
finding carries it. -/
theorem c3_replacement_preserved_amended (a b : Finding)
    (hk : dedupKey a = dedupKey b)
    (ha : a.recommended_update ≠ some "") (hb : b.recommended_update ≠ some "")
    (hx : truthyRec a.recommended_update ≠ truthyRec b.recommended_update) :
    ∃ c, merge_findings [a] [b] = [c] ∧
      c.recommended_update =
        (if truthyRec a.recommended_update then a.recommended_update
         else b.recommended_update) ∧
      truthyRec c.recommended_update = true := by
  refine ⟨resolve a b, merge_two a b hk.symm, resolve_rec_of_exactly_one a b ha hb hx, ?_⟩
  rw [resolve_rec_of_exactly_one a b ha hb hx]
  cases hta : truthyRec a.recommended_update with
  | true => simp [hta]
  | false =>
      have : truthyRec b.recommended_update = true := by
        cases htb : truthyRec b.recommended_update with
        | true => rfl
        | false => rw [hta, htb] at hx; exact absurd rfl hx
      simp [hta, this]

def aX3 : Finding :=
  { id := "x3a", finding_type := "outdated", severity := "high",
    title := "api docs outdated", description := "",
    file_path := some "README.md", line_number := none,
    target_section := none, recommended_update := some "", diagram := none }

def bX3 : Finding :=
  { aX3 with id := "x3b", severity := "low", recommended_update := some "Use the v2 endpoint instead." }

/-- C3 counterexample: the two findings collide, only the second carries
a (non-empty) replacement text, yet the merge keeps the first finding
with its empty-string field, so the replacement text is lost: the code
patches a stored replacement only when the stored field is None. -/
theorem c3_counterexample :
    dedupKey aX3 = dedupKey bX3 ∧
    truthyRec aX3.recommended_update = false ∧
    truthyRec bX3.recommended_update = true ∧
    merge_findings [aX3] [bX3] = [aX3] ∧
    (merge_findings [aX3] [bX3]).all
      (fun c => !(truthyRec c.recommended_update)) = true := by
  decide

def wA3 : Finding :=
  { id := "w3a", finding_type := "missing_doc", severity := "low",
    title := "configuration flags", description := "",
    file_path := some "README.md", line_number := none,
    target_section := none,
    recommended_update := some "Document the retry flag.", diagram := none }

def wB3 : Finding :=
  { wA3 with id := "w3b", severity := "critical", recommended_update := none }

theorem c3_witness :
    ∃ c, merge_findings [wA3] [wB3] = [c] ∧
      c.recommended_update =
        (if truthyRec wA3.recommended_update then wA3.recommended_update
         else wB3.recommended_update) ∧
      truthyRec c.recommended_update = true :=
  c3_replacement_preserved_amended wA3 wB3 (by decide) (by decide) (by decide)
    (by decide)

/-! ### The key set of a merge -/

/-- Every stored pair of the key map has its own dedup key as its key. -/
def KeyInv (m : List (String × Finding)) : Prop :=
  ∀ p ∈ m, dedupKey p.2 = p.1

theorem lookupKey_mem_keys {k : String} {m : List (String × Finding)}
    {e : Finding} (h : lookupKey k m = some e) : k ∈ m.map Prod.fst := by
  induction m with
  | nil => simp [lookupKey] at h
  | cons p rest ih =>
      obtain ⟨k1, v⟩ := p
      by_cases hk : k1 = k
      · simp [hk]
      · rw [lookupKey, if_neg hk] at h
        simp [ih h]

theorem lookupKey_none_of_not_mem {k : String} {m : List (String × Finding)}
    (h : k ∉ m.map Prod.fst) : lookupKey k m = none := by
  induction m with
  | nil => rfl
  | cons p rest ih =>
      obtain ⟨k1, v⟩ := p
      simp only [List.map_cons, List.mem_cons] at h
      push_neg at h
      rw [lookupKey, if_neg (fun he => h.1 he.symm)]
      exact ih h.2

theorem keys_setKey (k : String) (v : Finding) (m : List (String × Finding)) :
    (setKey k v m).map Prod.fst = m.map Prod.fst := by
  induction m with
  | nil => rfl
  | cons p rest ih =>
      obtain ⟨k1, v1⟩ := p
      rw [setKey]
      split_ifs <;> simp [ih]

theorem mem_setKey {p : String × Finding} {k : String} {v : Finding}
    {m : List (String × Finding)} (h : p ∈ setKey k v m) :
    p ∈ m ∨ p = (k, v) := by
  induction m with
  | nil => simp [setKey] at h
  | cons q rest ih =>
      obtain ⟨k1, v1⟩ := q
      rw [setKey] at h
      split_ifs at h with he
      · rcases List.mem_cons.1 h with h1 | h1
        · exact Or.inr (by rw [h1, he])
        · exact Or.inl (List.mem_cons_of_mem _ h1)
      · rcases List.mem_cons.1 h with h1 | h1
        · exact Or.inl (by rw [h1]; exact List.mem_cons_self _ _)
        · rcases ih h1 with h2 | h2
          · exact Or.inl (List.mem_cons_of_mem _ h2)
          · exact Or.inr h2

theorem lookupKey_inv {m : List (String × Finding)} {k : String} {e : Finding}
    (hm : KeyInv m) (h : lookupKey k m = some e) : dedupKey e = k := by
  induction m with
  | nil => simp [lookupKey] at h
  | cons p rest ih =>
      obtain ⟨k1, v⟩ := p
      rw [lookupKey] at h
      split_ifs at h with he
      · cases h
        rw [← he]
        exact hm (k1, e) (List.mem_cons_self _ _)
      · exact ih (fun q hq => hm q (List.mem_cons_of_mem _ hq)) h

/-- A resolution between same-key findings stays on that key. -/
theorem resolve_key (a b : Finding) (h : dedupKey a = dedupKey b) :
    dedupKey (resolve a b) = dedupKey a := by
  unfold resolve
  split_ifs <;> simp [dedupKey_update_rec, h]

theorem keyInv_insertFinding {m : List (String × Finding)} (hm : KeyInv m)
    (f : Finding) : KeyInv (insertFinding m f) := by
  intro p hp
  cases h : lookupKey (dedupKey f) m with
  | none =>
      simp only [insertFinding, h] at hp
      rcases List.mem_append.1 hp with h1 | h1
      · exact hm p h1
      · simp only [List.mem_singleton] at h1
        rw [h1]
  | some e =>
      simp only [insertFinding, h] at hp
      rcases mem_setKey hp with h1 | h1
      · exact hm p h1
      · rw [h1]
        have he : dedupKey e = dedupKey f := lookupKey_inv hm h
        exact (resolve_key e f he).trans he

theorem keys_insertFinding (m : List (String × Finding)) (f : Finding)
    (k : String) :
    k ∈ (insertFinding m f).map Prod.fst ↔
      k ∈ m.map Prod.fst ∨ k = dedupKey f := by
  cases h : lookupKey (dedupKey f) m with
  | none => simp [insertFinding, h]
  | some e =>
      simp only [insertFinding, h]
      rw [keys_setKey]
      have hmem := lookupKey_mem_keys h
      constructor
      · exact Or.inl
      · rintro (h1 | h1)
        · exact h1
        · rw [h1]; exact hmem

theorem keys_foldl (fs : List Finding) :
    ∀ (m : List (String × Finding)) (k : String),
      k ∈ (fs.foldl insertFinding m).map Prod.fst ↔
        k ∈ m.map Prod.fst ∨ k ∈ fs.map dedupKey := by
  induction fs with
  | nil => simp
  | cons f fs ih =>
      intro m k
      rw [List.foldl_cons, ih, keys_insertFinding]
      simp only [List.map_cons, List.mem_cons]
      tauto

theorem keyInv_foldl (fs : List Finding) :
    ∀ (m : List (String × Finding)), KeyInv m →
      KeyInv (fs.foldl insertFinding m) := by
  induction fs with
  | nil => exact fun m hm => hm
  | cons f fs ih =>
      intro m hm
      rw [List.foldl_cons]
      exact ih _ (keyInv_insertFinding hm f)

theorem map_dedupKey_eq_keys {m : List (String × Finding)} (hm : KeyInv m) :
    (m.map Prod.snd).map dedupKey = m.map Prod.fst := by
  induction m with
  | nil => rfl
  | cons p rest ih =>
      simp only [List.map_cons]
      rw [hm p (List.mem_cons_self _ _),
        ih (fun q hq => hm q (List.mem_cons_of_mem _ hq))]

/-- The dedup keys present in a merge output are exactly the dedup keys
of the two input lists. -/
theorem mem_keys_merge (L R : List Finding) (k : String) :
    k ∈ (merge_findings L R).map dedupKey ↔ k ∈ (L ++ R).map dedupKey := by
  unfold merge_findings
  rw [map_dedupKey_eq_keys (keyInv_foldl _ _ (fun p hp => absurd hp (List.not_mem_nil p))),
    keys_foldl]
  simp

/-- C4: merging A as existing with B as incoming yields the same set of
dedup keys as merging B as existing with A as incoming. -/
theorem c4_key_set_commutative (A B : List Finding) (k : String) :
    k ∈ (merge_findings A B).map dedupKey ↔
      k ∈ (merge_findings B A).map dedupKey := by
  rw [mem_keys_merge, mem_keys_merge]
  simp only [List.map_append, List.mem_append]
  tauto

/-! ### Idempotence of an empty update -/

theorem insertFinding_not_mem {m : List (String × Finding)} {f : Finding}
    (h : dedupKey f ∉ m.map Prod.fst) :
    insertFinding m f = m ++ [(dedupKey f, f)] := by
  simp only [insertFinding, lookupKey_none_of_not_mem h]

theorem foldl_insert_nodup (l : List Finding) :
    ∀ (m : List (String × Finding)), (l.map dedupKey).Nodup →
      (∀ f ∈ l, dedupKey f ∉ m.map Prod.fst) →
      l.foldl insertFinding m = m ++ l.map (fun f => (dedupKey f, f)) := by
  induction l with
  | nil => simp
  | cons f l ih =>
      intro m hnd hdisj
      rw [List.map_cons, List.nodup_cons] at hnd
      rw [List.foldl_cons,
        insertFinding_not_mem (hdisj f (List.mem_cons_self _ _)),
        ih _ hnd.2 ?_]
      · simp [List.map_cons, List.append_assoc]
      · intro g hg
        simp only [List.map_append, List.mem_append, List.map_cons,
          List.map_nil, List.mem_singleton]
        push_neg
        refine ⟨hdisj g (List.mem_cons_of_mem _ hg), fun he => ?_⟩
        exact hnd.1 (he ▸ List.mem_map_of_mem dedupKey hg)

/-- C6 (amended): an empty incoming update is a no-op for the append-list
reducer on any channel value, and for the findings reducer whenever the
current findings list has pairwise distinct dedup keys. -/
theorem c6_empty_update_amended :
    (∀ (α : Type) (l : List α), merge_lists l [] = l) ∧
    (∀ (l : List Finding), (l.map dedupKey).Nodup →
      merge_findings l [] = l) := by
  constructor
  · intro α l
    simp [merge_lists]
  · intro l h
    unfold merge_findings
    rw [List.append_nil, foldl_insert_nodup l [] h (by simp),
      List.nil_append, List.map_map]
    have hcomp : (Prod.snd ∘ fun f : Finding => (dedupKey f, f)) = id :=
      funext fun f => rfl
    rw [hcomp, List.map_id]

def wf6 : Finding :=
  { id := "w6", finding_type := "improvement", severity := "low",
    title := "flowchart of the api", description := "",
    file_path := some "docs/arch.md", line_number := none,
    target_section := none, recommended_update := none, diagram := none }

theorem c6_witness :
    ([wf6].map dedupKey).Nodup ∧ merge_findings [wf6] [] = [wf6] :=
  ⟨by decide, c6_empty_update_amended.2 [wf6] (by decide)⟩

/-- C6 counterexample: on a findings list holding two findings with one
dedup key, the findings reducer applied with an empty incoming list
collapses them, so the channel value changes. -/
theorem c6_counterexample :
    merge_findings [wf6, wf6] [] = [wf6] ∧
    merge_findings [wf6, wf6] [] ≠ [wf6, wf6] := by
  decide

/-! ### Scenario A: concept-based deduplication -/

def fA5 : Finding :=
  { id := "a5", finding_type := "missing-documentation", severity := "medium",
    title := "Add config section", description := "",
    file_path := some "README.md", line_number := none,
    target_section := none, recommended_update := none, diagram := none }

def fB5 : Finding :=
  { fA5 with id := "b5", title := "Document configuration options" }

/-- C5: the two Scenario A findings both map to the canonical concept
`config`, receive equal dedup keys, and merge into exactly one finding. -/
theorem c5_scenario_a :
    extractConcepts (fA5.title ++ " " ++ fA5.description) = ["config"] ∧
    extractConcepts (fB5.title ++ " " ++ fB5.description) = ["config"] ∧
    dedupKey fA5 = dedupKey fB5 ∧
    merge_findings [fA5] [fB5] = [fA5] ∧
    (merge_findings [fA5] [fB5]).length = 1 := by
  decide

/-! ### Scenario C: the sub-task chain -/

/-- C7: with the Agent-Needed Set holding correction and
technical_writer and diagrams disabled, the routers chain
technical_writer, then correction, then the critic (correction has a
fixed edge to the critic), and no router ever selects the
visual_architect step. -/
theorem c7_subchain (s : RState)
    (h1 : s.agents_needed = ["correction", "technical_writer"])
    (h2 : s.enable_diagrams = false) :
    route_agents s = NodeName.technical_writer_agent ∧
    route_after_technical_writer s = NodeName.correction_agent ∧
    fixedSuccessor NodeName.correction_agent = some NodeName.critic ∧
    route_agents s ≠ NodeName.visual_architect_agent ∧
    route_after_technical_writer s ≠ NodeName.visual_architect_agent ∧
    route_after_visual_architect s ≠ NodeName.visual_architect_agent ∧
    route_after_discovery s ≠ NodeName.visual_architect_agent ∧
    ∀ maxRetries, should_retry_analysis maxRetries s ≠
      NodeName.visual_architect_agent := by
  refine ⟨?_, ?_, rfl, ?_, ?_, ?_, ?_, ?_⟩
  · simp only [route_agents, h1, h2]
    decide
  · simp only [route_after_technical_writer, h1, h2]
    decide
  · simp only [route_agents, h1, h2]
    decide
  · simp only [route_after_technical_writer, h1, h2]
    decide
  · simp only [route_after_visual_architect, h1]
    decide
  · simp only [route_after_discovery]
    split_ifs <;> decide
  · intro maxRetries
    simp only [should_retry_analysis]
    split_ifs <;> decide

def s7 : RState :=
  { loopStart with agents_needed := ["correction", "technical_writer"], enable_diagrams := false }

theorem c7_witness :
    route_agents s7 = NodeName.technical_writer_agent ∧
    route_after_technical_writer s7 = NodeName.correction_agent ∧
    fixedSuccessor NodeName.correction_agent = some NodeName.critic ∧
    route_agents s7 ≠ NodeName.visual_architect_agent ∧
    route_after_technical_writer s7 ≠ NodeName.visual_architect_agent ∧
    route_after_visual_architect s7 ≠ NodeName.visual_architect_agent ∧
    route_after_discovery s7 ≠ NodeName.visual_architect_agent ∧
    ∀ maxRetries, should_retry_analysis maxRetries s7 ≠
      NodeName.visual_architect_agent :=
  c7_subchain s7 rfl rfl

/-! ### Scenario D: the bounded retry loop -/

/-- A finding the analysis produces on every attempt in Scenario D. -/
def fD1 : Finding :=
  { id := "d1", finding_type := "missing_doc", severity := "high",
    title := "api endpoint not documented", description := "the api is new",
    file_path := some "README.md", line_number := none,
    target_section := none, recommended_update := none, diagram := none }

/-- Scenario D analysis stream: each attempt yields one finding and
requests no sub-task agents. -/
def analysisOutD : Nat → List Finding × List String := fun _ => ([fD1], [])

/-- Scenario D sub-task chain contribution: empty. -/
def agentOutD : Nat → List Finding := fun _ => []

/-- Scenario D external validator: rejects every attempt. -/
def verdictNeverD : Nat → Except String (Bool × String) :=
  fun _ => Except.ok (false, "Findings are not grounded in the diff")

/-- C1 counterexample: with a validator that never passes and
max_retries set to 2, the run does NOT invoke the analysis step 3 times
with validation_passed still false at the aggregator. -/
theorem c1_counterexample :
    ¬ ((runLoop 2 analysisOutD agentOutD verdictNeverD 10 loopStart).1 = 3 ∧
       (runLoop 2 analysisOutD agentOutD verdictNeverD 10 loopStart).2.validation_passed
         = false) := by
  decide

/-- C1 (amended): with a validator that never passes and max_retries set
to 2, the analysis step is invoked exactly 2 times; the validation step
then forcibly passes because retry_count has reached max_retries, so the
aggregator is entered with validation_passed = true. -/
theorem c1_scenario_d_amended :
    (runLoop 2 analysisOutD agentOutD verdictNeverD 10 loopStart).1 = 2 ∧
    (runLoop 2 analysisOutD agentOutD verdictNeverD 10 loopStart).2.validation_passed
      = true ∧
    (runLoop 2 analysisOutD agentOutD verdictNeverD 10 loopStart).2.validation_feedback
      = some "Max retries exceeded - accepting analysis" ∧
    (runLoop 2 analysisOutD agentOutD verdictNeverD 10 loopStart).2.retry_count = 2 := by
  decide

/-! ### Step boundaries and collaborator failures -/

/-- C8 counterexample: a collaborator failure inside the analysis step is
re-raised (as `LLMError`) past the step boundary instead of being turned
into an error-list append. -/
theorem c8_counterexample :
    analyze_changes (some { title := "Add retry support" }) (some "present")
      true 0 (Except.error "quota exhausted") =
    Except.error "Analysis failed: quota exhausted" := rfl

/-- C8 (amended): the fetch and scan steps catch every collaborator
failure at their boundary and return an error-list append, and the
validation step absorbs a collaborator failure into a passing update;
the analysis step is the exception: it re-raises the failure past the
step boundary. -/
theorem c8_boundary_amended :
    (∀ m, extract_pr_diff (Except.error (CollabFailure.api m)) =
      Except.ok { pr_metadata := none, file_changes := none,
                  errors := some ["Failed to extract PR data: " ++ m] }) ∧
    (∀ m, extract_pr_diff (Except.error (CollabFailure.other m)) =
      Except.ok { pr_metadata := none, file_changes := none,
                  errors := some ["Unexpected error extracting PR data: " ++ m] }) ∧
    (∀ m, scan_repository (Except.error (CollabFailure.api m)) =
      Except.ok { documentation_files := none, documentation_status := none,
                  source_files := none, repo_structure := none,
                  errors := some ["Failed to scan repository: " ++ m] }) ∧
    (∀ m, scan_repository (Except.error (CollabFailure.other m)) =
      Except.ok { documentation_files := none, documentation_status := none,
                  source_files := none, repo_structure := none,
                  errors := some ["Unexpected error scanning repository: " ++ m] }) ∧
    (∀ maxRetries fs rc e, validate_analysis maxRetries fs rc (Except.error e) =
      if fs.isEmpty then (true, "No findings generated")
      else if maxRetries ≤ rc then (true, "Max retries exceeded - accepting analysis")
      else (true, "Validation error (accepting): " ++ e)) ∧
    (∀ pm dstat ed rc e, analyze_changes (some pm) dstat ed rc (Except.error e) =
      Except.error ("Analysis failed: " ++ e)) := by
  refine ⟨fun m => rfl, fun m => rfl, fun m => rfl, fun m => rfl, ?_,
    fun pm dstat ed rc e => rfl⟩
  intro maxRetries fs rc e
  unfold validate_analysis
  split_ifs <;> rfl

/-! ### The retry counter -/

/-- The update the analysis step returns when PR metadata is absent. -/
def noMetaUpdate : AuditorUpdate :=
  { findings := none, agents_needed := none, retry_count := none,
    errors := some ["No PR metadata available for analysis"] }

/-- C9 counterexample: an entry into the analysis step with PR metadata
absent returns an update that does not write retry_count at all (it only
appends an error), so retry_count is not incremented on that entry. -/
theorem c9_counterexample :
    analyze_changes none (some "present") true 0 (Except.ok ([], [])) =
      Except.ok noMetaUpdate ∧
    noMetaUpdate.retry_count = none := ⟨rfl, rfl⟩

/-- C9 (amended): on every analysis entry where PR metadata is present
and the collaborator call succeeds, the returned update sets retry_count
to the read value plus one; on entries without PR metadata the update
leaves retry_count unwritten and only appends an error. -/
theorem c9_retry_increment_amended :
    (∀ pm dstat ed rc fs ags,
      analyze_changes (some pm) dstat ed rc (Except.ok (fs, ags)) =
        Except.ok { findings := some fs,
                    agents_needed := some (determine_agents_needed ags ed (docsMissing dstat)),
                    retry_count := some (rc + 1), errors := none }) ∧
    (∀ dstat ed rc llm, analyze_changes none dstat ed rc llm =
      Except.ok noMetaUpdate) :=
  ⟨fun _ _ _ _ _ _ => rfl, fun _ _ _ _ => rfl⟩

/-! ### Validation with no findings -/

/-- C10: with an empty findings channel the validation step returns
validation_passed = true and the feedback "No findings generated", for
every validator oracle alike (the external validator is never consulted),
and a passing validation always routes to the aggregator, so a
zero-finding analysis pass can never trigger a retry. -/
theorem c10_empty_findings_pass :
    (∀ maxRetries rc llm, validate_analysis maxRetries [] rc llm =
      (true, "No findings generated")) ∧
    (∀ maxRetries rc llm llm2, validate_analysis maxRetries [] rc llm =
      validate_analysis maxRetries [] rc llm2) ∧
    (∀ (maxRetries : Nat) (s : RState), should_retry_analysis maxRetries
      { s with validation_passed := true } = NodeName.aggregator) :=
  ⟨fun _ _ _ => rfl, fun _ _ _ _ => rfl, fun _ _ => rfl⟩
